import Mathlib

/-!
# Verification of the bicubic spline evaluator (spline/spline.cpp)

Shallow embedding of the 2D tensor-product cubic spline evaluator.  IEEE
`float` arithmetic is modelled as exact rational arithmetic (`ℚ`); the SIMD
vector types (`float4`, `float16`, `float_v`) are modelled lane-wise, since
every vector operation used by the code (add, sub, mul, broadcast, gather,
`simd_cast` concatenation/extraction) acts independently per lane.

The class declaration lives in `spline.h`, which is not among the sources;
the position resolver `evaluatePosition` and the `Fill` member are therefore
modelled from the spec (see the doc comments below).  Everything else is
translated directly from `spline.cpp`.
-/

/-- One entry of `fXYZ`: a `Vc::simdarray<float, 4>` (`DataPoint`) holding the
three channels x, y, z plus one padding lane (zero-initialised by
`DataPoint::Zero()`). -/
structure DataPoint where
  x : ℚ
  y : ℚ
  z : ℚ
  w : ℚ
deriving DecidableEq

/-- `DataPoint::Zero()`. -/
def DataPoint.zero : DataPoint := ⟨0, 0, 0, 0⟩

/-- The spline grid object (`class Spline`): per-axis point counts, origin,
step, precomputed inverse step, and the row-major flattened sample array. -/
structure Spline where
  fNA : ℤ
  fNB : ℤ
  fN : ℤ
  fMinA : ℚ
  fMinB : ℚ
  fStepA : ℚ
  fStepB : ℚ
  fScaleA : ℚ
  fScaleB : ℚ
  fXYZ : List DataPoint

/-- The constructor `Spline::Spline(minA, maxA, nBinsA, minB, maxB, nBinsB)`
(spline.cpp lines 50-63): counts below 4 are clamped up to 4, degenerate
bounds `max <= min` are corrected to `min + 1` before computing the step,
scales are the reciprocals of the steps, and the sample array is
zero-initialised with `fNA * fNB` entries. -/
def Spline.make (minA maxA : ℚ) (nBinsA : ℤ) (minB maxB : ℚ) (nBinsB : ℤ) : Spline :=
  let fNA : ℤ := if nBinsA < 4 then 4 else nBinsA
  let fNB : ℤ := if nBinsB < 4 then 4 else nBinsB
  let fStepA : ℚ := ((if maxA ≤ minA then minA + 1 else maxA) - minA) / ((fNA : ℚ) - 1)
  let fStepB : ℚ := ((if maxB ≤ minB then minB + 1 else maxB) - minB) / ((fNB : ℚ) - 1)
  { fNA := fNA
    fNB := fNB
    fN := fNA * fNB
    fMinA := minA
    fMinB := minB
    fStepA := fStepA
    fStepB := fStepB
    fScaleA := 1 / fStepA
    fScaleB := 1 / fStepB
    fXYZ := List.replicate (fNA * fNB).toNat DataPoint.zero }

/-- Modelled from the spec: `Spline::Fill(int ind, const float XYZ[])` is
declared in `spline.h`, which is not among the sources.  Spec §4.1: "`fill
(index, value)` stores a 3-component value at flattened `index`".  The padding
lane of the stored `DataPoint` is left unchanged (it stays at its
zero-initialised value). -/
def Spline.Fill (s : Spline) (ind : ℤ) (v : ℚ × ℚ × ℚ) : Spline :=
  let old := s.fXYZ.getD ind.toNat DataPoint.zero
  { s with fXYZ := s.fXYZ.set ind.toNat ⟨v.1, v.2.1, v.2.2, old.w⟩ }

/-- Read of `fXYZ[i]` (the code indexes with unsigned arithmetic that the
construction invariants keep in range; out-of-range reads return a default so
that the access function is total). -/
def Spline.sample (s : Spline) (i : ℤ) : DataPoint :=
  s.fXYZ.getD i.toNat DataPoint.zero

/-- The 1D cubic interpolator `GetSpline3(v0, v1, v2, v3, x)` (spline.cpp
lines 66-73): Catmull-Rom-style cubic with centred-difference tangents,
parameterised so that `x ∈ [0,1)` interpolates between `v1` and `v2`. -/
def GetSpline3 (v0 v1 v2 v3 x : ℚ) : ℚ :=
  let dv := v2 - v1
  let z0 := (1 / 2) * (v2 - v0)
  let z1 := (1 / 2) * (v3 - v1)
  (x * x) * ((z1 - dv) * (x - 1) + (z0 - dv) * (x - 2)) + (z0 * x + v1)

/-- Modelled from the spec: the Position Resolver (`evaluatePosition`, declared
in `spline.h`, which is not among the sources).  Spec §4.2: the raw index is
`(coord - min) * invStep`; its integer part is clamped to `[1, count - 3]` so
the 4-point stencil stays in range, then 1 is subtracted to obtain the
stencil's base index; the fractional offset is measured relative to stencil
sample 1 (so that offset 0 lands on the second of the four samples).  One axis. -/
def resolveAxis (coord mn invStep : ℚ) (n : ℤ) : ℤ × ℚ :=
  let raw := (coord - mn) * invStep
  let i := max 1 (min (n - 3) ⌊raw⌋)
  (i - 1, raw - (i : ℚ))

/-- Modelled from the spec: the two-axis `evaluatePosition` used by all
evaluation modes (spline.cpp lines 84-85, 111-112, 142-143, 168-169); returns
`(iA, iB, da, db)` where `iA, iB` are the stencil base indices and `da, db`
the fractional offsets.  Spec §4.2 adds that the vectorized overloads perform
the same arithmetic lane-wise with clamping applied per lane independently. -/
def Spline.evaluatePosition (s : Spline) (a b : ℚ) : ℤ × ℤ × ℚ × ℚ :=
  let pa := resolveAxis a s.fMinA s.fScaleA s.fNA
  let pb := resolveAxis b s.fMinB s.fScaleB s.fNB
  (pa.1, pb.1, pa.2, pb.2)

/-- `Spline::GetValueScalar` (spline.cpp lines 138-163): resolve the position,
then for each channel run the 1D interpolator along axis B on each of the four
stencil rows (the loop advances `ind` by `fNB` per row) and combine the four
row values along axis A. -/
def Spline.GetValueScalar (s : Spline) (ab : ℚ × ℚ) : ℚ × ℚ × ℚ :=
  let q := s.evaluatePosition ab.1 ab.2
  let iA := q.1
  let iB := q.2.1
  let da := q.2.2.1
  let db := q.2.2.2
  let ind0 := iA * s.fNB + iB
  let ind1 := ind0 + s.fNB
  let ind2 := ind1 + s.fNB
  let ind3 := ind2 + s.fNB
  let vx0 := GetSpline3 (s.sample ind0).x (s.sample (ind0 + 1)).x
      (s.sample (ind0 + 2)).x (s.sample (ind0 + 3)).x db
  let vy0 := GetSpline3 (s.sample ind0).y (s.sample (ind0 + 1)).y
      (s.sample (ind0 + 2)).y (s.sample (ind0 + 3)).y db
  let vz0 := GetSpline3 (s.sample ind0).z (s.sample (ind0 + 1)).z
      (s.sample (ind0 + 2)).z (s.sample (ind0 + 3)).z db
  let vx1 := GetSpline3 (s.sample ind1).x (s.sample (ind1 + 1)).x
      (s.sample (ind1 + 2)).x (s.sample (ind1 + 3)).x db
  let vy1 := GetSpline3 (s.sample ind1).y (s.sample (ind1 + 1)).y
      (s.sample (ind1 + 2)).y (s.sample (ind1 + 3)).y db
  let vz1 := GetSpline3 (s.sample ind1).z (s.sample (ind1 + 1)).z
      (s.sample (ind1 + 2)).z (s.sample (ind1 + 3)).z db
  let vx2 := GetSpline3 (s.sample ind2).x (s.sample (ind2 + 1)).x
      (s.sample (ind2 + 2)).x (s.sample (ind2 + 3)).x db
  let vy2 := GetSpline3 (s.sample ind2).y (s.sample (ind2 + 1)).y
      (s.sample (ind2 + 2)).y (s.sample (ind2 + 3)).y db
  let vz2 := GetSpline3 (s.sample ind2).z (s.sample (ind2 + 1)).z
      (s.sample (ind2 + 2)).z (s.sample (ind2 + 3)).z db
  let vx3 := GetSpline3 (s.sample ind3).x (s.sample (ind3 + 1)).x
      (s.sample (ind3 + 2)).x (s.sample (ind3 + 3)).x db
  let vy3 := GetSpline3 (s.sample ind3).y (s.sample (ind3 + 1)).y
      (s.sample (ind3 + 2)).y (s.sample (ind3 + 3)).y db
  let vz3 := GetSpline3 (s.sample ind3).z (s.sample (ind3 + 1)).z
      (s.sample (ind3 + 2)).z (s.sample (ind3 + 3)).z db
  (GetSpline3 vx0 vx1 vx2 vx3 da,
   GetSpline3 vy0 vy1 vy2 vy3 da,
   GetSpline3 vz0 vz1 vz2 vz3 da)

/-- `GetSpline3` instantiated at `Vc::simdarray<float, 4>`: lane-wise on a
`DataPoint` (the parameter `x` is a broadcast scalar in every use). -/
def GetSpline3DP (a b c d : DataPoint) (x : ℚ) : DataPoint :=
  ⟨GetSpline3 a.x b.x c.x d.x x,
   GetSpline3 a.y b.y c.y d.y x,
   GetSpline3 a.z b.z c.z d.z x,
   GetSpline3 a.w b.w c.w d.w x⟩

/-- `Spline::GetValue(Point2)` (spline.cpp lines 80-105): the 4-wide
single-query mode; each 4-wide vector holds the three channels plus the
padding lane of one `DataPoint`, so the four row interpolations and the
combining pass each run once on 4-wide vectors. -/
def Spline.GetValue (s : Spline) (ab : ℚ × ℚ) : ℚ × ℚ × ℚ :=
  let q := s.evaluatePosition ab.1 ab.2
  let iA := q.1
  let iB := q.2.1
  let da := q.2.2.1
  let db := q.2.2.2
  let ind0 := iA * s.fNB + iB
  let ind1 := ind0 + s.fNB
  let ind2 := ind1 + s.fNB
  let ind3 := ind2 + s.fNB
  let v0 := GetSpline3DP (s.sample ind0) (s.sample (ind0 + 1))
      (s.sample (ind0 + 2)) (s.sample (ind0 + 3)) db
  let v1 := GetSpline3DP (s.sample ind1) (s.sample (ind1 + 1))
      (s.sample (ind1 + 2)) (s.sample (ind1 + 3)) db
  let v2 := GetSpline3DP (s.sample ind2) (s.sample (ind2 + 1))
      (s.sample (ind2 + 2)) (s.sample (ind2 + 3)) db
  let v3 := GetSpline3DP (s.sample ind3) (s.sample (ind3 + 1))
      (s.sample (ind3 + 2)) (s.sample (ind3 + 3)) db
  let res := GetSpline3DP v0 v1 v2 v3 da
  (res.x, res.y, res.z)

/-- A `Vc::simdarray<float, 16>` modelled as its four 4-wide quarters (the
order produced by `simd_cast<float16>(a, b, c, d)`: quarter `qk` holds the
lanes of argument `k`). -/
structure Wide16 where
  q0 : DataPoint
  q1 : DataPoint
  q2 : DataPoint
  q3 : DataPoint

/-- `GetSpline3` instantiated at `Vc::simdarray<float, 16>`: lane-wise. -/
def GetSpline3W16 (a b c d : Wide16) (x : ℚ) : Wide16 :=
  ⟨GetSpline3DP a.q0 b.q0 c.q0 d.q0 x,
   GetSpline3DP a.q1 b.q1 c.q1 d.q1 x,
   GetSpline3DP a.q2 b.q2 c.q2 d.q2 x,
   GetSpline3DP a.q3 b.q3 c.q3 d.q3 x⟩

/-- `Spline::GetValue16` (spline.cpp lines 107-136): the 16-wide single-query
mode; the four stencil rows (`m0`..`m3`, consecutive row pointers `fNB`
apart) are concatenated into 16-wide vectors so all four row interpolations
collapse into one wide call, whose four quarters are then combined by one
4-wide call. -/
def Spline.GetValue16 (s : Spline) (ab : ℚ × ℚ) : ℚ × ℚ × ℚ :=
  let q := s.evaluatePosition ab.1 ab.2
  let iA := q.1
  let iB := q.2.1
  let da := q.2.2.1
  let db := q.2.2.2
  let m0 := iA * s.fNB + iB
  let m1 := m0 + s.fNB
  let m2 := m1 + s.fNB
  let m3 := m2 + s.fNB
  let v0123 := GetSpline3W16
      ⟨s.sample m0, s.sample m1, s.sample m2, s.sample m3⟩
      ⟨s.sample (m0 + 1), s.sample (m1 + 1), s.sample (m2 + 1), s.sample (m3 + 1)⟩
      ⟨s.sample (m0 + 2), s.sample (m1 + 2), s.sample (m2 + 2), s.sample (m3 + 2)⟩
      ⟨s.sample (m0 + 3), s.sample (m1 + 3), s.sample (m2 + 3), s.sample (m3 + 3)⟩ db
  let res := GetSpline3DP v0123.q0 v0123.q1 v0123.q2 v0123.q3 da
  (res.x, res.y, res.z)

/-- `Spline::GetValue(const Point2V &)` (spline.cpp lines 165-193): the
horizontally-batched mode.  Every `float_v` operation (the vectorized
`evaluatePosition`, the index arithmetic, the interleaved gather
`map[ind + k]`, and `GetSpline3<float_v>`) is lane-wise, so the embedding is
indexed by the lane `l` of a batch of `W` query points. -/
def Spline.GetValueV (s : Spline) {W : ℕ} (ab : Fin W → ℚ × ℚ) : Fin W → ℚ × ℚ × ℚ :=
  fun l =>
    let q := s.evaluatePosition (ab l).1 (ab l).2
    let iA := q.1
    let iB := q.2.1
    let da := q.2.2.1
    let db := q.2.2.2
    let ind0 := iA * s.fNB + iB
    let ind1 := ind0 + s.fNB
    let ind2 := ind1 + s.fNB
    let ind3 := ind2 + s.fNB
    let vx0 := GetSpline3 (s.sample ind0).x (s.sample (ind0 + 1)).x
        (s.sample (ind0 + 2)).x (s.sample (ind0 + 3)).x db
    let vy0 := GetSpline3 (s.sample ind0).y (s.sample (ind0 + 1)).y
        (s.sample (ind0 + 2)).y (s.sample (ind0 + 3)).y db
    let vz0 := GetSpline3 (s.sample ind0).z (s.sample (ind0 + 1)).z
        (s.sample (ind0 + 2)).z (s.sample (ind0 + 3)).z db
    let vx1 := GetSpline3 (s.sample ind1).x (s.sample (ind1 + 1)).x
        (s.sample (ind1 + 2)).x (s.sample (ind1 + 3)).x db
    let vy1 := GetSpline3 (s.sample ind1).y (s.sample (ind1 + 1)).y
        (s.sample (ind1 + 2)).y (s.sample (ind1 + 3)).y db
    let vz1 := GetSpline3 (s.sample ind1).z (s.sample (ind1 + 1)).z
        (s.sample (ind1 + 2)).z (s.sample (ind1 + 3)).z db
    let vx2 := GetSpline3 (s.sample ind2).x (s.sample (ind2 + 1)).x
        (s.sample (ind2 + 2)).x (s.sample (ind2 + 3)).x db
    let vy2 := GetSpline3 (s.sample ind2).y (s.sample (ind2 + 1)).y
        (s.sample (ind2 + 2)).y (s.sample (ind2 + 3)).y db
    let vz2 := GetSpline3 (s.sample ind2).z (s.sample (ind2 + 1)).z
        (s.sample (ind2 + 2)).z (s.sample (ind2 + 3)).z db
    let vx3 := GetSpline3 (s.sample ind3).x (s.sample (ind3 + 1)).x
        (s.sample (ind3 + 2)).x (s.sample (ind3 + 3)).x db
    let vy3 := GetSpline3 (s.sample ind3).y (s.sample (ind3 + 1)).y
        (s.sample (ind3 + 2)).y (s.sample (ind3 + 3)).y db
    let vz3 := GetSpline3 (s.sample ind3).z (s.sample (ind3 + 1)).z
        (s.sample (ind3 + 2)).z (s.sample (ind3 + 3)).z db
    (GetSpline3 vx0 vx1 vx2 vx3 da,
     GetSpline3 vy0 vy1 vy2 vy3 da,
     GetSpline3 vz0 vz1 vz2 vz3 da)

/-- Whether a query point lies within the grid's domain
`[min, min + (count-1) * step]` on both axes. -/
def Spline.inDomain (s : Spline) (ab : ℚ × ℚ) : Prop :=
  s.fMinA ≤ ab.1 ∧ ab.1 ≤ s.fMinA + ((s.fNA : ℚ) - 1) * s.fStepA ∧
  s.fMinB ≤ ab.2 ∧ ab.2 ≤ s.fMinB + ((s.fNB : ℚ) - 1) * s.fStepB

instance (s : Spline) (ab : ℚ × ℚ) : Decidable (s.inDomain ab) := by
  unfold Spline.inDomain; infer_instance

/-- The 1D interpolator paired with its invocation count: one call site of
`GetSpline3` performs exactly one interpolator invocation. -/
def GetSpline3Counted (v0 v1 v2 v3 x : ℚ) : ℚ × ℕ :=
  (GetSpline3 v0 v1 v2 v3 x, 1)

/-- `Spline::GetValueScalar` instrumented with the number of `GetSpline3`
invocations it performs: the row loop runs 4 times calling the interpolator
once per channel (lines 149-157), and the combining pass calls it once per
channel (lines 159-161).  The value component is the same computation as
`Spline.GetValueScalar`; the count component adds up the per-call-site
counts. -/
def Spline.GetValueScalarInstr (s : Spline) (ab : ℚ × ℚ) : (ℚ × ℚ × ℚ) × ℕ :=
  let q := s.evaluatePosition ab.1 ab.2
  let iA := q.1
  let iB := q.2.1
  let da := q.2.2.1
  let db := q.2.2.2
  let ind0 := iA * s.fNB + iB
  let ind1 := ind0 + s.fNB
  let ind2 := ind1 + s.fNB
  let ind3 := ind2 + s.fNB
  let vx0 := GetSpline3Counted (s.sample ind0).x (s.sample (ind0 + 1)).x
      (s.sample (ind0 + 2)).x (s.sample (ind0 + 3)).x db
  let vy0 := GetSpline3Counted (s.sample ind0).y (s.sample (ind0 + 1)).y
      (s.sample (ind0 + 2)).y (s.sample (ind0 + 3)).y db
  let vz0 := GetSpline3Counted (s.sample ind0).z (s.sample (ind0 + 1)).z
      (s.sample (ind0 + 2)).z (s.sample (ind0 + 3)).z db
  let vx1 := GetSpline3Counted (s.sample ind1).x (s.sample (ind1 + 1)).x
      (s.sample (ind1 + 2)).x (s.sample (ind1 + 3)).x db
  let vy1 := GetSpline3Counted (s.sample ind1).y (s.sample (ind1 + 1)).y
      (s.sample (ind1 + 2)).y (s.sample (ind1 + 3)).y db
  let vz1 := GetSpline3Counted (s.sample ind1).z (s.sample (ind1 + 1)).z
      (s.sample (ind1 + 2)).z (s.sample (ind1 + 3)).z db
  let vx2 := GetSpline3Counted (s.sample ind2).x (s.sample (ind2 + 1)).x
      (s.sample (ind2 + 2)).x (s.sample (ind2 + 3)).x db
  let vy2 := GetSpline3Counted (s.sample ind2).y (s.sample (ind2 + 1)).y
      (s.sample (ind2 + 2)).y (s.sample (ind2 + 3)).y db
  let vz2 := GetSpline3Counted (s.sample ind2).z (s.sample (ind2 + 1)).z
      (s.sample (ind2 + 2)).z (s.sample (ind2 + 3)).z db
  let vx3 := GetSpline3Counted (s.sample ind3).x (s.sample (ind3 + 1)).x
      (s.sample (ind3 + 2)).x (s.sample (ind3 + 3)).x db
  let vy3 := GetSpline3Counted (s.sample ind3).y (s.sample (ind3 + 1)).y
      (s.sample (ind3 + 2)).y (s.sample (ind3 + 3)).y db
  let vz3 := GetSpline3Counted (s.sample ind3).z (s.sample (ind3 + 1)).z
      (s.sample (ind3 + 2)).z (s.sample (ind3 + 3)).z db
  let rx := GetSpline3Counted vx0.1 vx1.1 vx2.1 vx3.1 da
  let ry := GetSpline3Counted vy0.1 vy1.1 vy2.1 vy3.1 da
  let rz := GetSpline3Counted vz0.1 vz1.1 vz2.1 vz3.1 da
  ((rx.1, ry.1, rz.1),
   vx0.2 + vy0.2 + vz0.2 + vx1.2 + vy1.2 + vz1.2 +
   vx2.2 + vy2.2 + vz2.2 + vx3.2 + vy3.2 + vz3.2 +
   rx.2 + ry.2 + rz.2)

/-- Coordinate of grid node `i` of a 4-point axis over `[-1, 1]`
(`min = -1`, `step = 2/3`), used by the concrete spec scenario. -/
def nodeCoord (i : ℤ) : ℚ := -1 + (i : ℚ) * (2 / 3)

/-- The spec's concrete scenario: a 4×4 grid with bounds `[-1,1]×[-1,1]`
filled (like the driver loop in main.cpp lines 258-264, one `Fill` per
flattened index) with `value(a, b) = {a, b, a*b}` at each grid node
(row-major index `ind = i * 4 + j`). -/
def exampleGrid : Spline :=
  (List.range 16).foldl
    (fun s ind =>
      s.Fill ind
        (nodeCoord ((ind : ℤ) / 4), nodeCoord ((ind : ℤ) % 4),
         nodeCoord ((ind : ℤ) / 4) * nodeCoord ((ind : ℤ) % 4)))
    (Spline.make (-1) 1 4 (-1) 1 4)

/-- A 4×4 grid over `[-1,1]×[-1,1]` whose x channel is 1 on grid row `i = 1`
and 0 elsewhere (constant along axis B), used to exhibit the behaviour of
out-of-domain queries. -/
def rowBump : Spline :=
  (List.range 16).foldl
    (fun s ind =>
      s.Fill ind (if (ind : ℤ) / 4 = 1 then (1 : ℚ) else 0, 0, 0))
    (Spline.make (-1) 1 4 (-1) 1 4)

/-- The component-wise agreement check of the driver's verify-equivalence
block (main.cpp lines 350-357): each of the three channels differs by at most
`0.00001` in absolute value. -/
def withinTolerance (u v : ℚ × ℚ × ℚ) : Prop :=
  |u.1 - v.1| ≤ 1 / 100000 ∧ |u.2.1 - v.2.1| ≤ 1 / 100000 ∧
  |u.2.2 - v.2.2| ≤ 1 / 100000

instance (u v : ℚ × ℚ × ℚ) : Decidable (withinTolerance u v) := by
  unfold withinTolerance; infer_instance

/-! ## Helper lemmas -/

/-- The 4-wide single-query mode performs, lane by lane, exactly the scalar
computation (all `float4` operations are lane-wise). -/
theorem GetValue_eq_GetValueScalar (s : Spline) (ab : ℚ × ℚ) :
    s.GetValue ab = s.GetValueScalar ab := rfl

/-- The 16-wide single-query mode performs, lane by lane, exactly the scalar
computation (`simd_cast` only regroups lanes). -/
theorem GetValue16_eq_GetValueScalar (s : Spline) (ab : ℚ × ℚ) :
    s.GetValue16 ab = s.GetValueScalar ab := rfl

/-- Each lane of the horizontally-batched mode performs exactly the scalar
computation on that lane's query point. -/
theorem GetValueV_eq_GetValueScalar (s : Spline) {W : ℕ} (ab : Fin W → ℚ × ℚ)
    (l : Fin W) : s.GetValueV ab l = s.GetValueScalar (ab l) := rfl

/-- At fractional parameter 0 the 1D interpolator returns its second sample. -/
theorem GetSpline3_zero (v0 v1 v2 v3 : ℚ) : GetSpline3 v0 v1 v2 v3 0 = v1 := by
  unfold GetSpline3; ring

/-- The stencil base index produced by the position resolver always lies in
`[0, n - 4]` when the axis has at least 4 points. -/
theorem resolveAxis_fst_bounds (coord mn invStep : ℚ) (n : ℤ) (hn : 4 ≤ n) :
    0 ≤ (resolveAxis coord mn invStep n).1 ∧
      (resolveAxis coord mn invStep n).1 ≤ n - 4 := by
  unfold resolveAxis
  dsimp only
  omega

/-- The stencil base index of any query equals that of the query clamped into
the axis domain `[mn, mn + (n-1) * step]`: the resolver's integer clamp
realises the boundary policy. -/
theorem resolveAxis_clamp_eq (mn step coord : ℚ) (n : ℤ) (hn : 4 ≤ n)
    (hst : 0 < step) :
    (resolveAxis coord mn (1 / step) n).1 =
      (resolveAxis (max mn (min (mn + ((n : ℚ) - 1) * step) coord)) mn
        (1 / step) n).1 := by
  unfold resolveAxis
  dsimp only
  rcases le_or_lt coord mn with hlo | hlo
  · have hub : mn ≤ mn + ((n : ℚ) - 1) * step := by
      have : (0 : ℚ) ≤ ((n : ℚ) - 1) * step := by
        apply mul_nonneg _ hst.le
        have : (4 : ℚ) ≤ (n : ℚ) := by exact_mod_cast hn
        linarith
      linarith
    have hcl : max mn (min (mn + ((n : ℚ) - 1) * step) coord) = mn := by
      have : min (mn + ((n : ℚ) - 1) * step) coord ≤ mn := le_trans (min_le_right _ _) hlo
      simp [max_eq_left this]
    rw [hcl]
    have hraw : (coord - mn) * (1 / step) ≤ 0 := by
      apply mul_nonpos_of_nonpos_of_nonneg
      · linarith
      · positivity
    have h1 : ⌊(coord - mn) * (1 / step)⌋ ≤ 0 := by
      calc ⌊(coord - mn) * (1 / step)⌋ ≤ ⌊(0 : ℚ)⌋ := Int.floor_le_floor hraw
        _ = 0 := Int.floor_zero
    have h2 : ⌊(mn - mn) * (1 / step)⌋ = 0 := by
      norm_num
    rw [h2]
    omega
  · rcases le_or_lt coord (mn + ((n : ℚ) - 1) * step) with hhi | hhi
    · have hcl : max mn (min (mn + ((n : ℚ) - 1) * step) coord) = coord := by
        rw [min_eq_right hhi, max_eq_right hlo.le]
      rw [hcl]
    · have hcl : max mn (min (mn + ((n : ℚ) - 1) * step) coord) =
          mn + ((n : ℚ) - 1) * step := by
        have hub : mn ≤ mn + ((n : ℚ) - 1) * step := by
          have : (0 : ℚ) ≤ ((n : ℚ) - 1) * step := by
            apply mul_nonneg _ hst.le
            have : (4 : ℚ) ≤ (n : ℚ) := by exact_mod_cast hn
            linarith
          linarith
        rw [min_eq_left hhi.le, max_eq_right hub]
      rw [hcl]
      have hne : step ≠ 0 := ne_of_gt hst
      have h2 : (mn + ((n : ℚ) - 1) * step - mn) * (1 / step) = (n : ℚ) - 1 := by
        field_simp
      rw [h2]
      have h2f : ⌊(n : ℚ) - 1⌋ = n - 1 := by
        rw [show (n : ℚ) - 1 = ((n - 1 : ℤ) : ℚ) by push_cast; ring, Int.floor_intCast]
      have hraw : ((n : ℚ) - 1) ≤ (coord - mn) * (1 / step) := by
        rw [show (coord - mn) * (1 / step) = (coord - mn) / step by ring,
          le_div_iff hst]
        linarith
      have h1 : n - 1 ≤ ⌊(coord - mn) * (1 / step)⌋ := by
        calc (n - 1 : ℤ) = ⌊(n : ℚ) - 1⌋ := h2f.symm
          _ ≤ ⌊(coord - mn) * (1 / step)⌋ := Int.floor_le_floor hraw
      rw [h2f]
      omega

set_option maxHeartbeats 2000000 in
/-- The concrete scenario grid, written out: metadata from the constructor
with bounds `[-1,1]×[-1,1]` and 4 points per axis, and the 16 filled
samples `{a_i, b_j, a_i * b_j}` with `a_i = b_i = -1 + i * 2/3`. -/
theorem exampleGrid_eq :
    exampleGrid =
      { fNA := 4, fNB := 4, fN := 16, fMinA := -1, fMinB := -1,
        fStepA := 2/3, fStepB := 2/3, fScaleA := 3/2, fScaleB := 3/2,
        fXYZ :=
          [⟨-1, -1, 1, 0⟩, ⟨-1, -1/3, 1/3, 0⟩, ⟨-1, 1/3, -1/3, 0⟩, ⟨-1, 1, -1, 0⟩,
           ⟨-1/3, -1, 1/3, 0⟩, ⟨-1/3, -1/3, 1/9, 0⟩, ⟨-1/3, 1/3, -1/9, 0⟩, ⟨-1/3, 1, -1/3, 0⟩,
           ⟨1/3, -1, -1/3, 0⟩, ⟨1/3, -1/3, -1/9, 0⟩, ⟨1/3, 1/3, 1/9, 0⟩, ⟨1/3, 1, 1/3, 0⟩,
           ⟨1, -1, -1, 0⟩, ⟨1, -1/3, -1/3, 0⟩, ⟨1, 1/3, 1/3, 0⟩, ⟨1, 1, 1, 0⟩] } := by
  norm_num [exampleGrid, Spline.make, Spline.Fill, nodeCoord, List.range_succ,
    List.replicate, DataPoint.zero]
  all_goals simp
  all_goals norm_num

set_option maxHeartbeats 2000000 in
/-- The boundary-test grid, written out: same metadata as the scenario grid,
x channel 1 on grid row 1 and 0 elsewhere. -/
theorem rowBump_eq :
    rowBump =
      { fNA := 4, fNB := 4, fN := 16, fMinA := -1, fMinB := -1,
        fStepA := 2/3, fStepB := 2/3, fScaleA := 3/2, fScaleB := 3/2,
        fXYZ :=
          [⟨0, 0, 0, 0⟩, ⟨0, 0, 0, 0⟩, ⟨0, 0, 0, 0⟩, ⟨0, 0, 0, 0⟩,
           ⟨1, 0, 0, 0⟩, ⟨1, 0, 0, 0⟩, ⟨1, 0, 0, 0⟩, ⟨1, 0, 0, 0⟩,
           ⟨0, 0, 0, 0⟩, ⟨0, 0, 0, 0⟩, ⟨0, 0, 0, 0⟩, ⟨0, 0, 0, 0⟩,
           ⟨0, 0, 0, 0⟩, ⟨0, 0, 0, 0⟩, ⟨0, 0, 0, 0⟩, ⟨0, 0, 0, 0⟩] } := by
  norm_num [rowBump, Spline.make, Spline.Fill, List.range_succ,
    List.replicate, DataPoint.zero]
  all_goals simp
  all_goals norm_num

/-! ## Claim theorems -/

/-- C2: for every four consecutive samples `v0, v1, v2, v3` and every
fractional parameter `x ∈ [0, 1)`, `GetSpline3` returns
`x^2 * ((z1-dv)*(x-1) + (z0-dv)*(x-2)) + z0*x + v1` with `dv = v2 - v1`,
`z0 = (v2 - v0)/2`, `z1 = (v3 - v1)/2`. -/
theorem C2_GetSpline3_formula (v0 v1 v2 v3 x : ℚ) (hx0 : 0 ≤ x) (hx1 : x < 1) :
    GetSpline3 v0 v1 v2 v3 x =
      x ^ 2 * (((1 / 2) * (v3 - v1) - (v2 - v1)) * (x - 1) +
               ((1 / 2) * (v2 - v0) - (v2 - v1)) * (x - 2)) +
      ((1 / 2) * (v2 - v0)) * x + v1 := by
  unfold GetSpline3; ring

/-- Witness for C2 at `(v0, v1, v2, v3, x) = (1, 2, 3, 4, 1/2)`. -/
theorem C2_witness :
    (0 : ℚ) ≤ 1 / 2 ∧ (1 / 2 : ℚ) < 1 ∧
    GetSpline3 1 2 3 4 (1 / 2) =
      (1 / 2 : ℚ) ^ 2 * (((1 / 2) * (4 - 2) - (3 - 2)) * (1 / 2 - 1) +
               ((1 / 2) * (3 - 1) - (3 - 2)) * (1 / 2 - 2)) +
      ((1 / 2) * (3 - 1)) * (1 / 2) + 2 :=
  ⟨by norm_num, by norm_num,
   C2_GetSpline3_formula 1 2 3 4 (1 / 2) (by norm_num) (by norm_num)⟩

/-- C10: in exact arithmetic `GetSpline3` reproduces affine sample data
`v_i = c + i*s` for every parameter `x` (giving `c + s*(1+x)`), and four equal
samples yield exactly that common value for every `x`. -/
theorem C10_affine_reproduction (c s x : ℚ) :
    GetSpline3 c (c + s) (c + 2 * s) (c + 3 * s) x = c + s * (1 + x) ∧
    GetSpline3 c c c c x = c := by
  constructor <;> (unfold GetSpline3; ring)

/-- C6: a per-axis point count below 4 is silently corrected: the effective
count is the requested count when at least 4 and exactly 4 otherwise; in
particular a request of 2 points yields an effective count of 4. -/
theorem C6_min_size_guard (minA maxA : ℚ) (nBinsA : ℤ) (minB maxB : ℚ)
    (nBinsB : ℤ) :
    ((Spline.make minA maxA nBinsA minB maxB nBinsB).fNA =
        if 4 ≤ nBinsA then nBinsA else 4) ∧
    ((Spline.make minA maxA nBinsA minB maxB nBinsB).fNB =
        if 4 ≤ nBinsB then nBinsB else 4) ∧
    (nBinsA = 2 → (Spline.make minA maxA nBinsA minB maxB nBinsB).fNA = 4) := by
  refine ⟨?_, ?_, ?_⟩ <;> simp only [Spline.make] <;> split_ifs <;> omega

/-- Witness for C6: requesting `countA = 2` yields an effective `countA = 4`. -/
theorem C6_witness : (Spline.make 0 1 2 0 1 2).fNA = 4 :=
  (C6_min_size_guard 0 1 2 0 1 2).2.2 rfl

/-- C7: every construction request (including degenerate bounds, where
`min + 1` replaces `max`) yields positive steps on both axes, and `Fill`
never changes them, so they stay positive for the grid's lifetime. -/
theorem C7_positive_steps (minA maxA : ℚ) (nBinsA : ℤ) (minB maxB : ℚ)
    (nBinsB : ℤ) :
    0 < (Spline.make minA maxA nBinsA minB maxB nBinsB).fStepA ∧
    0 < (Spline.make minA maxA nBinsA minB maxB nBinsB).fStepB ∧
    ∀ (s : Spline) (i : ℤ) (v : ℚ × ℚ × ℚ),
      (s.Fill i v).fStepA = s.fStepA ∧ (s.Fill i v).fStepB = s.fStepB := by
  refine ⟨?_, ?_, fun s i v => ⟨rfl, rfl⟩⟩ <;>
  · simp only [Spline.make]
    apply div_pos
    · split_ifs <;> linarith
    · have h4 : (4 : ℤ) ≤ if nBinsA < 4 then 4 else nBinsA := by split_ifs <;> omega
      have h4b : (4 : ℤ) ≤ if nBinsB < 4 then 4 else nBinsB := by split_ifs <;> omega
      first
      | · have : (4 : ℚ) ≤ ((if nBinsA < 4 then 4 else nBinsA : ℤ) : ℚ) := by
            exact_mod_cast h4
          linarith
      | · have : (4 : ℚ) ≤ ((if nBinsB < 4 then 4 else nBinsB : ℤ) : ℚ) := by
            exact_mod_cast h4b
          linarith

/-- C1: for every grid and every query point within the grid's domain, the
4-wide mode `GetValue(Point2)`, the 16-wide mode `GetValue16`, and every lane
of the horizontally-batched `GetValue(Point2V)` agree with the scalar
reference `GetValueScalar` component-wise within `1e-5`. -/
theorem C1_cross_mode_equivalence (s : Spline) (ab : ℚ × ℚ)
    (hab : s.inDomain ab) {W : ℕ} (pts : Fin W → ℚ × ℚ)
    (hpts : ∀ l, s.inDomain (pts l)) (l : Fin W) :
    withinTolerance (s.GetValue ab) (s.GetValueScalar ab) ∧
    withinTolerance (s.GetValue16 ab) (s.GetValueScalar ab) ∧
    withinTolerance (s.GetValueV pts l) (s.GetValueScalar (pts l)) := by
  unfold withinTolerance
  rw [GetValue_eq_GetValueScalar, GetValue16_eq_GetValueScalar,
    GetValueV_eq_GetValueScalar]
  norm_num

/-- Witness for C1: the concrete 4×4 scenario grid, the in-domain query
`(0, 0)`, and a 1-wide batch holding the same query. -/
theorem C1_witness :
    exampleGrid.inDomain (0, 0) ∧
    (withinTolerance (exampleGrid.GetValue (0, 0))
        (exampleGrid.GetValueScalar (0, 0)) ∧
     withinTolerance (exampleGrid.GetValue16 (0, 0))
        (exampleGrid.GetValueScalar (0, 0)) ∧
     withinTolerance (exampleGrid.GetValueV (fun _ : Fin 1 => (0, 0)) 0)
        (exampleGrid.GetValueScalar (0, 0))) :=
  ⟨by norm_num [exampleGrid, Spline.make, Spline.Fill, Spline.inDomain,
      List.range_succ],
   C1_cross_mode_equivalence exampleGrid (0, 0)
     (by norm_num [exampleGrid, Spline.make, Spline.Fill, Spline.inDomain,
        List.range_succ])
     (fun _ : Fin 1 => (0, 0))
     (fun _ => by norm_num [exampleGrid, Spline.make, Spline.Fill,
        Spline.inDomain, List.range_succ])
     0⟩

/-- C5: given the construction invariants (`fNA ≥ 4`, `fNB ≥ 4`, samples
length `fNA * fNB`) and any query coordinate, every flattened sample index
read during evaluation (`ind + r * fNB + k` for stencil row `r ∈ [0,3]` and
column `k ∈ [0,3]`, `ind` being the resolved base index) lies in
`[0, fNA * fNB)`, hence within the sample array. -/
theorem C5_no_out_of_bounds (s : Spline) (a b : ℚ) (r k : ℤ)
    (hNA : 4 ≤ s.fNA) (hNB : 4 ≤ s.fNB)
    (hlen : s.fXYZ.length = (s.fNA * s.fNB).toNat)
    (hr0 : 0 ≤ r) (hr3 : r ≤ 3) (hk0 : 0 ≤ k) (hk3 : k ≤ 3) :
    0 ≤ (s.evaluatePosition a b).1 * s.fNB + (s.evaluatePosition a b).2.1 +
        r * s.fNB + k ∧
    (s.evaluatePosition a b).1 * s.fNB + (s.evaluatePosition a b).2.1 +
        r * s.fNB + k < s.fNA * s.fNB ∧
    ((s.evaluatePosition a b).1 * s.fNB + (s.evaluatePosition a b).2.1 +
        r * s.fNB + k).toNat < s.fXYZ.length := by
  obtain ⟨hA0, hA1⟩ := resolveAxis_fst_bounds a s.fMinA s.fScaleA s.fNA hNA
  obtain ⟨hB0, hB1⟩ := resolveAxis_fst_bounds b s.fMinB s.fScaleB s.fNB hNB
  have hiA : (s.evaluatePosition a b).1 =
      (resolveAxis a s.fMinA s.fScaleA s.fNA).1 := rfl
  have hiB : (s.evaluatePosition a b).2.1 =
      (resolveAxis b s.fMinB s.fScaleB s.fNB).1 := rfl
  rw [hiA, hiB]
  set iA := (resolveAxis a s.fMinA s.fScaleA s.fNA).1 with hA
  set iB := (resolveAxis b s.fMinB s.fScaleB s.fNB).1 with hB
  have hnB0 : (0 : ℤ) ≤ s.fNB := by omega
  have hlow : 0 ≤ iA * s.fNB + iB + r * s.fNB + k := by
    have h1 : 0 ≤ iA * s.fNB := mul_nonneg hA0 hnB0
    have h2 : 0 ≤ r * s.fNB := mul_nonneg hr0 hnB0
    omega
  have hmul : (iA + r) * s.fNB ≤ (s.fNA - 1) * s.fNB :=
    mul_le_mul_of_nonneg_right (by omega) hnB0
  have hexp1 : (iA + r) * s.fNB = iA * s.fNB + r * s.fNB := by ring
  have hexp2 : (s.fNA - 1) * s.fNB = s.fNA * s.fNB - s.fNB := by ring
  have hhigh : iA * s.fNB + iB + r * s.fNB + k < s.fNA * s.fNB := by omega
  exact ⟨hlow, hhigh, by omega⟩

/-- Witness for C5: the concrete 4×4 scenario grid, query `(0, 0)`, and the
last stencil entry `r = k = 3`. -/
theorem C5_witness :
    4 ≤ exampleGrid.fNA ∧ 4 ≤ exampleGrid.fNB ∧
    exampleGrid.fXYZ.length = (exampleGrid.fNA * exampleGrid.fNB).toNat ∧
    (0 ≤ (exampleGrid.evaluatePosition 0 0).1 * exampleGrid.fNB +
          (exampleGrid.evaluatePosition 0 0).2.1 + 3 * exampleGrid.fNB + 3 ∧
     (exampleGrid.evaluatePosition 0 0).1 * exampleGrid.fNB +
          (exampleGrid.evaluatePosition 0 0).2.1 + 3 * exampleGrid.fNB + 3 <
        exampleGrid.fNA * exampleGrid.fNB ∧
     ((exampleGrid.evaluatePosition 0 0).1 * exampleGrid.fNB +
          (exampleGrid.evaluatePosition 0 0).2.1 + 3 * exampleGrid.fNB +
          3).toNat < exampleGrid.fXYZ.length) :=
  ⟨by norm_num [exampleGrid, Spline.make, Spline.Fill, List.range_succ],
   by norm_num [exampleGrid, Spline.make, Spline.Fill, List.range_succ],
   by norm_num [exampleGrid, Spline.make, Spline.Fill, List.range_succ],
   C5_no_out_of_bounds exampleGrid 0 0 3 3
     (by norm_num [exampleGrid, Spline.make, Spline.Fill, List.range_succ])
     (by norm_num [exampleGrid, Spline.make, Spline.Fill, List.range_succ])
     (by norm_num [exampleGrid, Spline.make, Spline.Fill, List.range_succ])
     (by norm_num) (by norm_num) (by norm_num) (by norm_num)⟩

set_option maxHeartbeats 2000000 in
/-- C8: the concrete scenario of the spec: the 4×4 grid with bounds
`[-1,1]×[-1,1]` filled with `value(a,b) = {a, b, a*b}` at each grid node
evaluates at `(0, 0)` to approximately `{0, 0, 0}` and at the corner
`(-1, -1)` to approximately `{-1, -1, 1}` (both hold exactly in the
rational-arithmetic model). -/
theorem C8_concrete_scenario :
    withinTolerance (exampleGrid.GetValueScalar (0, 0)) (0, 0, 0) ∧
    withinTolerance (exampleGrid.GetValueScalar (-1, -1)) (-1, -1, 1) := by
  have h1 : exampleGrid.GetValueScalar (0, 0) = (0, 0, 0) := by
    rw [exampleGrid_eq]
    norm_num [Spline.GetValueScalar, Spline.sample, Spline.evaluatePosition,
      resolveAxis, GetSpline3]
    all_goals simp
    all_goals norm_num
  have h2 : exampleGrid.GetValueScalar (-1, -1) = (-1, -1, 1) := by
    rw [exampleGrid_eq]
    norm_num [Spline.GetValueScalar, Spline.sample, Spline.evaluatePosition,
      resolveAxis, GetSpline3]
    all_goals simp
    all_goals norm_num
  rw [withinTolerance, withinTolerance, h1, h2]
  norm_num

set_option maxHeartbeats 2000000 in
/-- Counterexample to C3 as stated: on a 4×4 grid over `[-1,1]×[-1,1]` whose
x channel is 1 on grid row 1 and 0 elsewhere, the out-of-domain query
`(-2, 0)` does not return the value obtained at the nearest clamped in-range
coordinate `(-1, 0)`: the code clamps only the stencil cell, then
extrapolates the cubic with the out-of-range fractional offset
(`-609/16` versus `-3`). -/
theorem C3_counterexample :
    (rowBump.GetValueScalar (-2, 0)).1 ≠ (rowBump.GetValueScalar (-1, 0)).1 := by
  have h1 : (rowBump.GetValueScalar (-2, 0)).1 = -609 / 16 := by
    rw [rowBump_eq]
    norm_num [Spline.GetValueScalar, Spline.sample, Spline.evaluatePosition,
      resolveAxis, GetSpline3]
    all_goals simp
    all_goals norm_num
  have h2 : (rowBump.GetValueScalar (-1, 0)).1 = -3 := by
    rw [rowBump_eq]
    norm_num [Spline.GetValueScalar, Spline.sample, Spline.evaluatePosition,
      resolveAxis, GetSpline3]
    all_goals simp
    all_goals norm_num
  rw [h1, h2]
  norm_num

/-- C3 (amended): a query at or beyond the domain boundary is well-defined
and resolves to exactly the stencil cell of the nearest clamped in-range
coordinate (the integer indices are clamped); only the fractional offset is
left unclamped, so the returned value is the boundary cell's cubic evaluated
(possibly extrapolated) at that offset rather than the value at the clamped
coordinate. -/
theorem C3_boundary_clamped_cell (s : Spline) (a b : ℚ)
    (hNA : 4 ≤ s.fNA) (hNB : 4 ≤ s.fNB)
    (hsA : s.fScaleA = 1 / s.fStepA) (hsB : s.fScaleB = 1 / s.fStepB)
    (hstA : 0 < s.fStepA) (hstB : 0 < s.fStepB) :
    (s.evaluatePosition a b).1 =
      (s.evaluatePosition
        (max s.fMinA (min (s.fMinA + ((s.fNA : ℚ) - 1) * s.fStepA) a))
        (max s.fMinB (min (s.fMinB + ((s.fNB : ℚ) - 1) * s.fStepB) b))).1 ∧
    (s.evaluatePosition a b).2.1 =
      (s.evaluatePosition
        (max s.fMinA (min (s.fMinA + ((s.fNA : ℚ) - 1) * s.fStepA) a))
        (max s.fMinB (min (s.fMinB + ((s.fNB : ℚ) - 1) * s.fStepB) b))).2.1 := by
  unfold Spline.evaluatePosition
  dsimp only
  rw [hsA, hsB]
  exact ⟨resolveAxis_clamp_eq s.fMinA s.fStepA a s.fNA hNA hstA,
    resolveAxis_clamp_eq s.fMinB s.fStepB b s.fNB hNB hstB⟩

/-- Witness for the amended C3: the concrete 4×4 scenario grid and the
out-of-domain query `(-2, 0)`. -/
theorem C3_witness :
    (exampleGrid.evaluatePosition (-2) 0).1 =
      (exampleGrid.evaluatePosition
        (max exampleGrid.fMinA
          (min (exampleGrid.fMinA + ((exampleGrid.fNA : ℚ) - 1) * exampleGrid.fStepA)
            (-2)))
        (max exampleGrid.fMinB
          (min (exampleGrid.fMinB + ((exampleGrid.fNB : ℚ) - 1) * exampleGrid.fStepB)
            0))).1 ∧
    (exampleGrid.evaluatePosition (-2) 0).2.1 =
      (exampleGrid.evaluatePosition
        (max exampleGrid.fMinA
          (min (exampleGrid.fMinA + ((exampleGrid.fNA : ℚ) - 1) * exampleGrid.fStepA)
            (-2)))
        (max exampleGrid.fMinB
          (min (exampleGrid.fMinB + ((exampleGrid.fNB : ℚ) - 1) * exampleGrid.fStepB)
            0))).2.1 :=
  C3_boundary_clamped_cell exampleGrid (-2) 0
    (by norm_num [exampleGrid, Spline.make, Spline.Fill, List.range_succ])
    (by norm_num [exampleGrid, Spline.make, Spline.Fill, List.range_succ])
    (by norm_num [exampleGrid, Spline.make, Spline.Fill, List.range_succ])
    (by norm_num [exampleGrid, Spline.make, Spline.Fill, List.range_succ])
    (by norm_num [exampleGrid, Spline.make, Spline.Fill, List.range_succ])
    (by norm_num [exampleGrid, Spline.make, Spline.Fill, List.range_succ])

/-- C4: evaluating exactly at an interior grid node `(fMinA + i*fStepA,
fMinB + j*fStepB)` (with `i`, `j` away from the boundary, i.e. in
`[1, count-3]`) returns the stored control value at node `(i, j)` exactly:
the spline passes through its control points. -/
theorem C4_control_points (s : Spline) (i j : ℤ)
    (hsA : s.fScaleA = 1 / s.fStepA) (hsB : s.fScaleB = 1 / s.fStepB)
    (hstA : s.fStepA ≠ 0) (hstB : s.fStepB ≠ 0)
    (hi1 : 1 ≤ i) (hi2 : i ≤ s.fNA - 3) (hj1 : 1 ≤ j) (hj2 : j ≤ s.fNB - 3) :
    s.GetValueScalar (s.fMinA + (i : ℚ) * s.fStepA, s.fMinB + (j : ℚ) * s.fStepB) =
      ((s.sample (i * s.fNB + j)).x, (s.sample (i * s.fNB + j)).y,
       (s.sample (i * s.fNB + j)).z) := by
  have hresA : resolveAxis (s.fMinA + (i : ℚ) * s.fStepA) s.fMinA s.fScaleA
      s.fNA = (i - 1, 0) := by
    have hraw : (s.fMinA + (i : ℚ) * s.fStepA - s.fMinA) * s.fScaleA = (i : ℚ) := by
      rw [hsA]
      field_simp
    simp only [resolveAxis]
    rw [hraw, Int.floor_intCast]
    have hcl : max 1 (min (s.fNA - 3) i) = i := by omega
    rw [hcl]
    simp
  have hresB : resolveAxis (s.fMinB + (j : ℚ) * s.fStepB) s.fMinB s.fScaleB
      s.fNB = (j - 1, 0) := by
    have hraw : (s.fMinB + (j : ℚ) * s.fStepB - s.fMinB) * s.fScaleB = (j : ℚ) := by
      rw [hsB]
      field_simp
    simp only [resolveAxis]
    rw [hraw, Int.floor_intCast]
    have hcl : max 1 (min (s.fNB - 3) j) = j := by omega
    rw [hcl]
    simp
  unfold Spline.GetValueScalar Spline.evaluatePosition
  dsimp only
  rw [hresA, hresB]
  dsimp only
  simp only [GetSpline3_zero]
  have hidx : (i - 1) * s.fNB + (j - 1) + s.fNB + 1 = i * s.fNB + j := by ring
  rw [hidx]

/-- Witness for C4: the concrete 4×4 scenario grid at interior node
`(i, j) = (1, 1)`. -/
theorem C4_witness :
    exampleGrid.fScaleA = 1 / exampleGrid.fStepA ∧ exampleGrid.fStepA ≠ 0 ∧
    (1 : ℤ) ≤ exampleGrid.fNA - 3 ∧
    exampleGrid.GetValueScalar
      (exampleGrid.fMinA + ((1 : ℤ) : ℚ) * exampleGrid.fStepA,
       exampleGrid.fMinB + ((1 : ℤ) : ℚ) * exampleGrid.fStepB) =
      ((exampleGrid.sample (1 * exampleGrid.fNB + 1)).x,
       (exampleGrid.sample (1 * exampleGrid.fNB + 1)).y,
       (exampleGrid.sample (1 * exampleGrid.fNB + 1)).z) :=
  ⟨by rw [exampleGrid_eq]; norm_num,
   by rw [exampleGrid_eq]; norm_num,
   by rw [exampleGrid_eq]; norm_num,
   C4_control_points exampleGrid 1 1
     (by rw [exampleGrid_eq]; norm_num)
     (by rw [exampleGrid_eq]; norm_num)
     (by rw [exampleGrid_eq]; norm_num)
     (by rw [exampleGrid_eq]; norm_num)
     (by norm_num)
     (by rw [exampleGrid_eq]; norm_num)
     (by norm_num)
     (by rw [exampleGrid_eq]; norm_num)⟩

/-- C9 (amended): each channel of the scalar mode is the 1D interpolator
applied along axis A to the four row interpolations along axis B (the row
base index advancing by `fNB` per row); the instrumented evaluator computes
the same value and performs exactly 15 interpolator invocations per query
(3 channels × (4 row passes + 1 combining pass)), not 7. -/
theorem C9_scalar_structure (s : Spline) (ab : ℚ × ℚ) :
    (let q := s.evaluatePosition ab.1 ab.2
     let da := q.2.2.1
     let db := q.2.2.2
     let ind0 := q.1 * s.fNB + q.2.1
     let ind1 := ind0 + s.fNB
     let ind2 := ind1 + s.fNB
     let ind3 := ind2 + s.fNB
     let w := fun (ind : ℤ) (ch : DataPoint → ℚ) =>
       GetSpline3 (ch (s.sample ind)) (ch (s.sample (ind + 1)))
         (ch (s.sample (ind + 2))) (ch (s.sample (ind + 3))) db
     s.GetValueScalar ab =
       (GetSpline3 (w ind0 DataPoint.x) (w ind1 DataPoint.x)
          (w ind2 DataPoint.x) (w ind3 DataPoint.x) da,
        GetSpline3 (w ind0 DataPoint.y) (w ind1 DataPoint.y)
          (w ind2 DataPoint.y) (w ind3 DataPoint.y) da,
        GetSpline3 (w ind0 DataPoint.z) (w ind1 DataPoint.z)
          (w ind2 DataPoint.z) (w ind3 DataPoint.z) da)) ∧
    (s.GetValueScalarInstr ab).1 = s.GetValueScalar ab ∧
    (s.GetValueScalarInstr ab).2 = 15 :=
  ⟨rfl, rfl, rfl⟩

/-- Counterexample to C9 as stated: the scalar mode performs 15 interpolator
invocations per query, not the "seven times per 3-component output" the spec
also states — exhibited on the concrete scenario grid at query `(0, 0)`. -/
theorem C9_counterexample : (exampleGrid.GetValueScalarInstr (0, 0)).2 ≠ 7 := by
  decide
